import Mathlib

/-!
Verification of the two-stage retrieve-then-rerank pipeline demonstrated by the
two notebooks of this repository (a Claude-based and a Titan-based variant).

The notebooks' own code is orchestration glue: download PDFs, trim their last
three pages, chunk and index them through an external framework, then run
`get_retrieved_nodes`, which performs embedding-based top-k retrieval and
optionally an LLM rerank.  The vector retriever and the LLM reranker live in
the external framework, so they are modelled here from the specification's
contracts (sections 4.1 and 4.2), with the embedding service and the
generation model abstracted as oracle functions.  Everything else (the trim
loop, `get_retrieved_nodes`, the prompt template and the reranker
configuration of each notebook) is embedded directly from the source cells.
-/

namespace AwsBedrockRag

/-- A retrieval result: a chunk identifier paired with a relevance score
(spec section 3, "Retrieval result").  Vector similarity scores and the
reranker's integer scores share this field, the latter replacing the
former. -/
structure ScoredNode where
  node : Nat
  score : ℚ
deriving DecidableEq, Repr

/-- Descending-score order on retrieval results: `a` may precede `b` when
`a`'s score is at least `b`'s. -/
def scoreGE (a b : ScoredNode) : Prop := b.score ≤ a.score

instance : DecidableRel scoreGE :=
  fun a b => inferInstanceAs (Decidable (b.score ≤ a.score))

instance : IsTotal ScoredNode scoreGE :=
  ⟨fun a b => le_total b.score a.score⟩

instance : IsTrans ScoredNode scoreGE :=
  ⟨fun _ _ _ h₁ h₂ => le_trans h₂ h₁⟩

/-- Recursion core for `toBatches`, structurally recursive on a fuel bound so
that batching computes by kernel reduction; `toBatches` always supplies
`fuel = xs.length`, which suffices because every step consumes at least one
element when the batch size is positive. -/
def toBatchesAux {α : Type} (k : Nat) : Nat → List α → List (List α)
  | _, [] => []
  | 0, _ :: _ => []
  | fuel + 1, x :: rest => (x :: rest).take k :: toBatchesAux k fuel ((x :: rest).drop k)

/-- Modelled from the spec (section 4.2): the reranker "partitions the
candidates into fixed-size batches"; the batching itself is not in `src/`
(it lives in the external framework's `LLMRerank`).  Successive slices of
`k` elements; an empty list (or a zero batch size) yields no batches. -/
def toBatches {α : Type} (k : Nat) (xs : List α) : List (List α) :=
  if k = 0 then [] else toBatchesAux k xs.length xs

/-- Modelled from the spec (section 4.2): for each candidate the model either
omits it (judged irrelevant) or returns its document number with an integer
relevance score; `judge` is the oracle abstracting one such judgment, and the
selected candidate keeps its chunk but has its similarity score replaced by
the model-assigned integer score. -/
def choiceSelect (judge : Nat → Option ℤ) (sn : ScoredNode) : Option ScoredNode :=
  (judge sn.node).map (fun z : ℤ => ⟨sn.node, (z : ℚ)⟩)

/-- Modelled from the spec (section 4.2): `LLMRerank.postprocess_nodes` is not
in `src/` (external framework).  It batches the candidates, issues one
choice-select judgment per batch, merges the per-batch outputs, sorts the
union by descending score and truncates to the requested top-n. -/
def llmRerank (judge : Nat → Option ℤ) (choice_batch_size top_n : Nat)
    (candidates : List ScoredNode) : List ScoredNode :=
  let judged :=
    ((toBatches choice_batch_size candidates).map
      (fun b => b.filterMap (choiceSelect judge))).flatten
  (judged.insertionSort scoreGE).take top_n

/-- Modelled from the spec (section 4.1): `VectorIndexRetriever.retrieve` is
not in `src/` (external framework).  Given the indexed chunks and the
similarity of each chunk's embedding to the query's embedding (the embedding
service abstracted as the oracle `sim`), it returns the `k` highest-scoring
chunks annotated with their similarity scores, in descending score order. -/
def vectorRetrieve (chunks : List Nat) (sim : Nat → ℚ) (k : Nat) : List ScoredNode :=
  ((chunks.map (fun c => (⟨c, sim c⟩ : ScoredNode))).insertionSort scoreGE).take k

/-- Embedded from the source (`get_retrieved_nodes` in both notebooks): run
the vector retriever with `similarity_top_k = vector_top_k`; when
`with_reranker` is set, post-process the retrieved nodes with an `LLMRerank`
configured with `choice_batch_size = 5` and `top_n = reranker_top_n`.  The
ambient index and the two hosted models are passed as explicit arguments
(`chunks`, `sim`, `judge`); both oracles receive the query string. -/
def get_retrieved_nodes (chunks : List Nat) (sim : String → Nat → ℚ)
    (judge : String → Nat → Option ℤ) (query_str : String)
    (vector_top_k reranker_top_n : Nat) (with_reranker : Bool) : List ScoredNode :=
  let retrieved_nodes := vectorRetrieve chunks (sim query_str) vector_top_k
  if with_reranker then
    llmRerank (judge query_str) 5 reranker_top_n retrieved_nodes
  else
    retrieved_nodes

/-- Embedded from the source (the trim cell, identical in both notebooks):
`for pagenum in range(len(pdf_reader.pages)-3): pdf_writer.add_page(pages[pagenum])`,
after which the file is overwritten with the collected pages.  A PDF is
modelled as its list of pages; Python's `range` of a negative number is
empty, which truncated `Nat` subtraction reproduces exactly. -/
def trimPdf {α : Type} (pages : List α) : List α :=
  (List.range (pages.length - 3)).filterMap (fun pagenum => pages[pagenum]?)

/-- Embedded from the source: a prompt object as constructed in the Claude
notebook (`Prompt(template, prompt_type=PromptType.CHOICE_SELECT)`). -/
structure ChoicePrompt where
  template : String
  prompt_type : String
deriving DecidableEq, Repr

/-- Embedded from the source (Claude notebook): the Claude-specific
choice-select prompt template, verbatim. -/
def CLAUDE_CHOICE_SELECT_PROMPT_TMPL : String :=
  "\n" ++
  "    \n" ++
  "    Human: A list of documents is shown below. Each document has a number next to it along  with a summary of the document. A question is also provided. \n" ++
  "    Respond with the respective document number. You should consult to answer the question, in order of relevance, as well as the relevance score. \n" ++
  "    The relevance score is a number from 1-10 based on how relevant you think the document is to the question.\n\"\n" ++
  "    Do not include any documents that are not relevant to the question. \n" ++
  "    \n" ++
  "    Example format: \n" ++
  "    Document 1:\n<summary of document 1>\n" ++
  "    Document 2:\n<summary of document 2>\n" ++
  "    ...\n\n\n" ++
  "    Document 10:\n<summary of document 10>\n" ++
  "    \n" ++
  "    Question: <question>\n" ++
  "    Answer:\n" ++
  "    Doc: 9, Relevance: 7\n" ++
  "    Doc: 3, Relevance: 4\n" ++
  "    Doc: 7, Relevance: 3\n" ++
  "\n" ++
  "    Let\x27s try this now: \n" ++
  "    {context_str}\n" ++
  "\n" ++
  "    Question: {query_str}\n" ++
  "    \n" ++
  "    Assistant: Answer:"

/-- Embedded from the source (Claude notebook):
`claude_choice_select_prompt = Prompt(CLAUDE_CHOICE_SELECT_PROMPT_TMPL, prompt_type=PromptType.CHOICE_SELECT)`. -/
def claude_choice_select_prompt : ChoicePrompt :=
  { template := CLAUDE_CHOICE_SELECT_PROMPT_TMPL, prompt_type := "CHOICE_SELECT" }

/-- The configuration with which each notebook constructs its `LLMRerank`
(the ambient service context, identical in role in both notebooks, is not a
distinguishing field). -/
structure LLMRerankConfig where
  choice_batch_size : Nat
  top_n : Nat
  choice_select_prompt : Option ChoicePrompt
deriving DecidableEq

/-- Embedded from the source (Claude notebook): `LLMRerank(choice_batch_size=5,
top_n=reranker_top_n, service_context=service_context,
choice_select_prompt=claude_choice_select_prompt)`. -/
def claudeRerankConfig (reranker_top_n : Nat) : LLMRerankConfig :=
  { choice_batch_size := 5
    top_n := reranker_top_n
    choice_select_prompt := some claude_choice_select_prompt }

/-- Embedded from the source (Titan notebook): `LLMRerank(choice_batch_size=5,
top_n=reranker_top_n, service_context=service_context)` — no
`choice_select_prompt` argument is supplied, so the framework default
template is used. -/
def titanRerankConfig (reranker_top_n : Nat) : LLMRerankConfig :=
  { choice_batch_size := 5
    top_n := reranker_top_n
    choice_select_prompt := none }

/-- The chunking configuration each notebook actually passes to
`ServiceContext.from_defaults(llm=llm, embed_model=embed_model, chunk_size=512)`:
chunk size 512 and no `chunk_overlap` argument at all. -/
structure ServiceContextConfig where
  chunk_size : Nat
  chunk_overlap : Option Nat
deriving DecidableEq

/-- Embedded from the source (identical cell in both notebooks). -/
def notebook_service_context : ServiceContextConfig :=
  { chunk_size := 512, chunk_overlap := none }

/-- From the notebooks' own markdown cell: "break the document into 1000
character chunks, with a 100 character overlap". -/
def documented_chunk_size : Nat := 1000

/-- From the notebooks' own markdown cell: the documented overlap. -/
def documented_chunk_overlap : Nat := 100

/-! ### Helper lemmas -/

/-- `toBatchesAux` does not depend on the fuel once the fuel covers the list
length. -/
theorem toBatchesAux_fuel {α : Type} (k : Nat) (hk : k ≠ 0) :
    ∀ (f₁ : Nat) (f₂ : Nat) (xs : List α), xs.length ≤ f₁ → xs.length ≤ f₂ →
      toBatchesAux k f₁ xs = toBatchesAux k f₂ xs := by
  intro f₁
  induction f₁ with
  | zero =>
    intro f₂ xs h₁ _
    have hx : xs = [] := List.length_eq_zero.mp (Nat.le_zero.mp h₁)
    subst hx
    cases f₂ <;> rfl
  | succ f ih =>
    intro f₂ xs h₁ h₂
    cases xs with
    | nil => cases f₂ <;> rfl
    | cons x rest =>
      cases f₂ with
      | zero => simp at h₂
      | succ g =>
        show (x :: rest).take k :: toBatchesAux k f ((x :: rest).drop k) =
          (x :: rest).take k :: toBatchesAux k g ((x :: rest).drop k)
        congr 1
        apply ih
        · simp only [List.length_drop, List.length_cons] at *
          omega
        · simp only [List.length_drop, List.length_cons] at *
          omega

theorem toBatches_nil {α : Type} (k : Nat) : toBatches k ([] : List α) = [] := by
  unfold toBatches
  split <;> rfl

theorem toBatches_cons {α : Type} (k : Nat) (hk : k ≠ 0) (x : α) (rest : List α) :
    toBatches k (x :: rest) = (x :: rest).take k :: toBatches k ((x :: rest).drop k) := by
  unfold toBatches
  rw [if_neg hk, if_neg hk]
  show (x :: rest).take k :: toBatchesAux k rest.length ((x :: rest).drop k) = _
  congr 1
  apply toBatchesAux_fuel k hk
  · simp only [List.length_drop, List.length_cons]
    omega
  · exact le_refl _

/-- Concatenating the batches gives back the candidate list. -/
theorem toBatches_flatten_aux {α : Type} (k : Nat) (hk : k ≠ 0) :
    ∀ (n : Nat) (xs : List α), xs.length ≤ n → (toBatches k xs).flatten = xs := by
  intro n
  induction n with
  | zero =>
    intro xs h
    have hx : xs = [] := List.length_eq_zero.mp (Nat.le_zero.mp h)
    subst hx
    simp [toBatches_nil]
  | succ n ih =>
    intro xs h
    cases xs with
    | nil => simp [toBatches_nil]
    | cons x rest =>
      rw [toBatches_cons k hk, List.flatten_cons,
        ih ((x :: rest).drop k) (by simp only [List.length_drop, List.length_cons] at *; omega)]
      exact List.take_append_drop k (x :: rest)

theorem toBatches_flatten {α : Type} (k : Nat) (hk : k ≠ 0) (xs : List α) :
    (toBatches k xs).flatten = xs :=
  toBatches_flatten_aux k hk xs.length xs (le_refl _)

/-- Judging each batch separately and merging is the same as judging the whole
candidate list: batching does not change the merged selection. -/
theorem toBatches_filterMap_flatten_aux {α β : Type} (k : Nat) (hk : k ≠ 0) (f : α → Option β) :
    ∀ (n : Nat) (xs : List α), xs.length ≤ n →
      ((toBatches k xs).map (fun b => b.filterMap f)).flatten = xs.filterMap f := by
  intro n
  induction n with
  | zero =>
    intro xs h
    have hx : xs = [] := List.length_eq_zero.mp (Nat.le_zero.mp h)
    subst hx
    simp [toBatches_nil]
  | succ n ih =>
    intro xs h
    cases xs with
    | nil => simp [toBatches_nil]
    | cons x rest =>
      rw [toBatches_cons k hk, List.map_cons, List.flatten_cons,
        ih ((x :: rest).drop k) (by simp only [List.length_drop, List.length_cons] at *; omega),
        ← List.filterMap_append, List.take_append_drop]

theorem toBatches_filterMap_flatten {α β : Type} (k : Nat) (hk : k ≠ 0) (f : α → Option β)
    (xs : List α) :
    ((toBatches k xs).map (fun b => b.filterMap f)).flatten = xs.filterMap f :=
  toBatches_filterMap_flatten_aux k hk f xs.length xs (le_refl _)

/-- Every batch has at most `k` elements. -/
theorem toBatches_batch_le_aux {α : Type} (k : Nat) :
    ∀ (n : Nat) (xs : List α), xs.length ≤ n → ∀ b ∈ toBatches k xs, b.length ≤ k := by
  intro n
  induction n with
  | zero =>
    intro xs h
    have hx : xs = [] := List.length_eq_zero.mp (Nat.le_zero.mp h)
    subst hx
    simp [toBatches_nil]
  | succ n ih =>
    intro xs h
    cases xs with
    | nil => simp [toBatches_nil]
    | cons x rest =>
      by_cases hk : k = 0
      · simp [toBatches, hk]
      · rw [toBatches_cons k hk]
        intro b hb
        rcases List.mem_cons.mp hb with hb | hb
        · subst hb
          exact List.length_take_le k _
        · exact ih ((x :: rest).drop k)
            (by simp only [List.length_drop, List.length_cons] at *; omega) b hb

theorem toBatches_batch_le {α : Type} (k : Nat) (xs : List α) :
    ∀ b ∈ toBatches k xs, b.length ≤ k :=
  toBatches_batch_le_aux k xs.length xs (le_refl _)

/-- Every batch except possibly the last is full: it has exactly `k`
elements. -/
theorem toBatches_dropLast_full_aux {α : Type} (k : Nat) (hk : k ≠ 0) :
    ∀ (n : Nat) (xs : List α), xs.length ≤ n →
      ∀ b ∈ (toBatches k xs).dropLast, b.length = k := by
  intro n
  induction n with
  | zero =>
    intro xs h
    have hx : xs = [] := List.length_eq_zero.mp (Nat.le_zero.mp h)
    subst hx
    simp [toBatches_nil]
  | succ n ih =>
    intro xs h
    cases xs with
    | nil => simp [toBatches_nil]
    | cons x rest =>
      rw [toBatches_cons k hk]
      cases hrest : toBatches k ((x :: rest).drop k) with
      | nil => simp
      | cons r rs =>
        rw [List.dropLast_cons₂]
        intro b hb
        rcases List.mem_cons.mp hb with hb | hb
        · subst hb
          have hne : (x :: rest).drop k ≠ [] := by
            intro hd
            rw [hd, toBatches_nil] at hrest
            exact List.noConfusion hrest
          have hpos : 0 < ((x :: rest).drop k).length := List.length_pos.mpr hne
          rw [List.length_take]
          simp only [List.length_drop, List.length_cons] at *
          omega
        · have := ih ((x :: rest).drop k)
            (by simp only [List.length_drop, List.length_cons] at *; omega)
          rw [hrest] at this
          exact this b hb

theorem toBatches_dropLast_full {α : Type} (k : Nat) (hk : k ≠ 0) (xs : List α) :
    ∀ b ∈ (toBatches k xs).dropLast, b.length = k :=
  toBatches_dropLast_full_aux k hk xs.length xs (le_refl _)

/-- A take of a descending insertion sort is sorted by descending score. -/
theorem sorted_insertionSort_take (l : List ScoredNode) (n : Nat) :
    List.Sorted scoreGE ((l.insertionSort scoreGE).take n) :=
  List.Pairwise.sublist (List.take_sublist n _) (List.sorted_insertionSort scoreGE l)

/-- Unfolding of `get_retrieved_nodes` without the reranker. -/
theorem get_retrieved_nodes_false_eq (chunks : List Nat) (sim : String → Nat → ℚ)
    (judge : String → Nat → Option ℤ) (query_str : String) (k n : Nat) :
    get_retrieved_nodes chunks sim judge query_str k n false =
      vectorRetrieve chunks (sim query_str) k := rfl

/-- Unfolding of `get_retrieved_nodes` with the reranker. -/
theorem get_retrieved_nodes_true_eq (chunks : List Nat) (sim : String → Nat → ℚ)
    (judge : String → Nat → Option ℤ) (query_str : String) (k n : Nat) :
    get_retrieved_nodes chunks sim judge query_str k n true =
      llmRerank (judge query_str) 5 n (vectorRetrieve chunks (sim query_str) k) := rfl

/-- The batched rerank collapses to: select from the whole candidate list,
sort by descending score, truncate. -/
theorem llmRerank_eq (judge : Nat → Option ℤ) (top_n : Nat) (cands : List ScoredNode) :
    llmRerank judge 5 top_n cands =
      ((cands.filterMap (choiceSelect judge)).insertionSort scoreGE).take top_n := by
  show ((((toBatches 5 cands).map
      (fun b => b.filterMap (choiceSelect judge))).flatten).insertionSort scoreGE).take top_n = _
  rw [toBatches_filterMap_flatten 5 (by omega) (choiceSelect judge) cands]

/-- The rerank output size is exactly `min top_n (number judged relevant)`. -/
theorem llmRerank_length (judge : Nat → Option ℤ) (top_n : Nat) (cands : List ScoredNode) :
    (llmRerank judge 5 top_n cands).length =
      min top_n (cands.filterMap (choiceSelect judge)).length := by
  rw [llmRerank_eq, List.length_take, (List.perm_insertionSort scoreGE _).length_eq]

/-- Every reranked node comes from a candidate: same chunk, score replaced by
the judged integer score. -/
theorem mem_llmRerank_node {judge : Nat → Option ℤ} {top_n : Nat} {cands : List ScoredNode}
    {sn : ScoredNode} (h : sn ∈ llmRerank judge 5 top_n cands) :
    ∃ sn' ∈ cands, sn.node = sn'.node ∧ ∃ z : ℤ, judge sn'.node = some z ∧ sn.score = (z : ℚ) := by
  rw [llmRerank_eq] at h
  have h1 := List.mem_of_mem_take h
  rcases List.mem_filterMap.mp ((List.perm_insertionSort scoreGE _).mem_iff.mp h1) with
    ⟨sn', hmem, hsel⟩
  unfold choiceSelect at hsel
  cases hz : judge sn'.node with
  | none =>
    rw [hz] at hsel
    exact Option.noConfusion hsel
  | some z =>
    rw [hz] at hsel
    simp only [Option.map_some'] at hsel
    have heq := Option.some.inj hsel
    refine ⟨sn', hmem, ?_, z, hz, ?_⟩
    · rw [← heq]
    · rw [← heq]

/-- The trim loop is exactly a prefix: `range` over `filterMap` of indexing
is `take`. -/
theorem range_filterMap_getElem {α : Type} (l : List α) (n : Nat) :
    (List.range n).filterMap (fun i => l[i]?) = l.take n := by
  induction n with
  | zero => simp
  | succ n ih =>
    rw [List.range_succ, List.filterMap_append, ih, List.take_succ]
    cases h : l[n]? <;> simp [h]

/-- The trim step keeps exactly the first `length - 3` pages. -/
theorem trimPdf_eq_take {α : Type} (pages : List α) :
    trimPdf pages = pages.take (pages.length - 3) :=
  range_filterMap_getElem pages (pages.length - 3)

/-- One trim pass removes three pages (truncated at zero). -/
theorem length_trimPdf {α : Type} (pages : List α) :
    (trimPdf pages).length = pages.length - 3 := by
  rw [trimPdf_eq_take, List.length_take]
  omega

/-! ### Claim theorems -/

/-- C1 (counterexample): the claim's "its output size is reranker_top_n" fails.
With one candidate retrieved and a model that judges no document relevant,
the rerank stage invoked with `reranker_top_n = 1` returns 0 chunks, not 1. -/
theorem C1_size_counterexample :
    (get_retrieved_nodes [0] (fun _ _ => (1 : ℚ)) (fun _ _ => none)
      "How has AWS evolved?" 3 1 true).length ≠ 1 := by decide

/-- C1 (amended): the rerank stage never introduces a chunk that was not among
the vector retriever's candidates, and its output size never exceeds
`min reranker_top_n (number of candidates)`; the size equals `reranker_top_n`
only when the model judges at least that many candidates relevant. -/
theorem C1_rerank_subset_capped (chunks : List Nat) (sim : String → Nat → ℚ)
    (judge : String → Nat → Option ℤ) (query_str : String)
    (vector_top_k reranker_top_n : Nat) :
    (∀ sn ∈ get_retrieved_nodes chunks sim judge query_str vector_top_k reranker_top_n true,
        sn.node ∈ (vectorRetrieve chunks (sim query_str) vector_top_k).map ScoredNode.node) ∧
    (get_retrieved_nodes chunks sim judge query_str vector_top_k reranker_top_n true).length ≤
      min reranker_top_n (vectorRetrieve chunks (sim query_str) vector_top_k).length := by
  constructor
  · intro sn hsn
    rw [get_retrieved_nodes_true_eq] at hsn
    rcases mem_llmRerank_node hsn with ⟨sn', hmem, hnode, _⟩
    rw [hnode]
    exact List.mem_map.mpr ⟨sn', hmem, rfl⟩
  · rw [get_retrieved_nodes_true_eq, llmRerank_length]
    have := List.length_filterMap_le (choiceSelect (judge query_str))
      (vectorRetrieve chunks (sim query_str) vector_top_k)
    omega

/-- C1 (witness): the subset and size bound instantiated at one retrieved
candidate judged relevant with score 7. -/
theorem C1_rerank_subset_capped_witness :
    (⟨0, (7 : ℚ)⟩ : ScoredNode).node ∈
      (vectorRetrieve [0] ((fun _ _ => (1 : ℚ)) "How has AWS evolved?") 1).map ScoredNode.node ∧
    (get_retrieved_nodes [0] (fun _ _ => (1 : ℚ)) (fun _ _ => some 7)
        "How has AWS evolved?" 1 1 true).length ≤
      min 1 (vectorRetrieve [0] ((fun _ _ => (1 : ℚ)) "How has AWS evolved?") 1).length :=
  ⟨(C1_rerank_subset_capped [0] (fun _ _ => (1 : ℚ)) (fun _ _ => some 7)
      "How has AWS evolved?" 1 1).1 ⟨0, (7 : ℚ)⟩ (by decide),
   (C1_rerank_subset_capped [0] (fun _ _ => (1 : ℚ)) (fun _ _ => some 7)
      "How has AWS evolved?" 1 1).2⟩

/-- C2: for every requested count K and every query, the vector-retrieval
stage (as invoked by `get_retrieved_nodes` with `with_reranker = False`)
returns at most K scored chunks, in non-increasing similarity-score order. -/
theorem C2_retrieval_at_most_k_sorted (chunks : List Nat) (sim : String → Nat → ℚ)
    (judge : String → Nat → Option ℤ) (query_str : String) (k n : Nat) :
    (get_retrieved_nodes chunks sim judge query_str k n false).length ≤ k ∧
    List.Sorted scoreGE (get_retrieved_nodes chunks sim judge query_str k n false) := by
  rw [get_retrieved_nodes_false_eq]
  exact ⟨List.length_take_le k _, sorted_insertionSort_take _ k⟩

/-- C3: the reranker partitions the candidates into batches of
`choice_batch_size = 5` (all batches have at most 5 candidates, all but the
last exactly 5, and together they are exactly the candidate list), obtains a
scored selection per batch, and its output is the merged selections sorted by
descending score and truncated to the requested top-n. -/
theorem C3_batched_choice_select (judge : Nat → Option ℤ) (top_n : Nat)
    (cands : List ScoredNode) :
    (toBatches 5 cands).flatten = cands ∧
    (∀ b ∈ toBatches 5 cands, b.length ≤ 5) ∧
    (∀ b ∈ (toBatches 5 cands).dropLast, b.length = 5) ∧
    llmRerank judge 5 top_n cands =
      ((cands.filterMap (choiceSelect judge)).insertionSort scoreGE).take top_n :=
  ⟨toBatches_flatten 5 (by omega) cands, toBatches_batch_le 5 cands,
   toBatches_dropLast_full 5 (by omega) cands, llmRerank_eq judge top_n cands⟩

/-- C3 (witness): the batching facts instantiated on six candidates, whose
first batch of five is full. -/
theorem C3_batched_choice_select_witness :
    (toBatches 5 [(⟨0, (0 : ℚ)⟩ : ScoredNode), ⟨1, 0⟩, ⟨2, 0⟩, ⟨3, 0⟩, ⟨4, 0⟩, ⟨5, 0⟩]).flatten =
      [(⟨0, (0 : ℚ)⟩ : ScoredNode), ⟨1, 0⟩, ⟨2, 0⟩, ⟨3, 0⟩, ⟨4, 0⟩, ⟨5, 0⟩] ∧
    ([(⟨0, (0 : ℚ)⟩ : ScoredNode), ⟨1, 0⟩, ⟨2, 0⟩, ⟨3, 0⟩, ⟨4, 0⟩] : List ScoredNode).length ≤ 5 ∧
    ([(⟨0, (0 : ℚ)⟩ : ScoredNode), ⟨1, 0⟩, ⟨2, 0⟩, ⟨3, 0⟩, ⟨4, 0⟩] : List ScoredNode).length = 5 :=
  ⟨(C3_batched_choice_select (fun _ => some 1) 2
      [⟨0, 0⟩, ⟨1, 0⟩, ⟨2, 0⟩, ⟨3, 0⟩, ⟨4, 0⟩, ⟨5, 0⟩]).1,
   (C3_batched_choice_select (fun _ => some 1) 2
      [⟨0, 0⟩, ⟨1, 0⟩, ⟨2, 0⟩, ⟨3, 0⟩, ⟨4, 0⟩, ⟨5, 0⟩]).2.1
      [⟨0, 0⟩, ⟨1, 0⟩, ⟨2, 0⟩, ⟨3, 0⟩, ⟨4, 0⟩] (by decide),
   (C3_batched_choice_select (fun _ => some 1) 2
      [⟨0, 0⟩, ⟨1, 0⟩, ⟨2, 0⟩, ⟨3, 0⟩, ⟨4, 0⟩, ⟨5, 0⟩]).2.2.1
      [⟨0, 0⟩, ⟨1, 0⟩, ⟨2, 0⟩, ⟨3, 0⟩, ⟨4, 0⟩] (by decide)⟩

/-- C4: the chunking configuration the notebooks actually pass contradicts
their own documentation: `ServiceContext.from_defaults` is called with
`chunk_size = 512`, not the documented 1000, and no `chunk_overlap` argument
is supplied at all, so no fixed 100-character overlap is configured. -/
theorem C4_chunk_config_contradicts_markdown :
    notebook_service_context.chunk_size = 512 ∧
    notebook_service_context.chunk_size ≠ documented_chunk_size ∧
    notebook_service_context.chunk_overlap = none ∧
    documented_chunk_size = 1000 ∧ documented_chunk_overlap = 100 :=
  ⟨rfl, by decide, rfl, rfl, rfl⟩

/-- C5 (counterexample): the demonstrated rerank call (`vector_top_k = 1`,
`reranker_top_n = 1`) does not always return exactly 1 chunk: if the model
judges no candidate relevant, it returns 0 chunks. -/
theorem C5_counterexample :
    (get_retrieved_nodes [0] (fun _ _ => (1 : ℚ)) (fun _ _ => none)
      "How has AWS evolved?" 1 1 true).length ≠ 1 := by decide

/-- C5 (amended): for the demonstrated query run with the reranker and
`reranker_top_n = 1`, if the model's relevance scores are integers in [1,10]
and it judges at least one retrieved candidate relevant, the pipeline returns
exactly 1 scored chunk whose score is an integer in [1,10] (the
model-assigned score replacing the similarity score). -/
theorem C5_rerank_top1 (chunks : List Nat) (sim : String → Nat → ℚ)
    (judge : String → Nat → Option ℤ)
    (hvalid : ∀ c z, judge "How has AWS evolved?" c = some z → 1 ≤ z ∧ z ≤ 10)
    (hrel : ∃ sn ∈ vectorRetrieve chunks (sim "How has AWS evolved?") 1,
        (judge "How has AWS evolved?" sn.node).isSome = true) :
    (get_retrieved_nodes chunks sim judge "How has AWS evolved?" 1 1 true).length = 1 ∧
    ∀ sn ∈ get_retrieved_nodes chunks sim judge "How has AWS evolved?" 1 1 true,
      ∃ z : ℤ, sn.score = (z : ℚ) ∧ 1 ≤ z ∧ z ≤ 10 := by
  constructor
  · rw [get_retrieved_nodes_true_eq, llmRerank_length]
    obtain ⟨sn, hsn, hsome⟩ := hrel
    obtain ⟨z, hz⟩ := Option.isSome_iff_exists.mp hsome
    have hmem : (⟨sn.node, (z : ℚ)⟩ : ScoredNode) ∈
        (vectorRetrieve chunks (sim "How has AWS evolved?") 1).filterMap
          (choiceSelect (judge "How has AWS evolved?")) :=
      List.mem_filterMap.mpr ⟨sn, hsn, by simp [choiceSelect, hz]⟩
    have hpos := List.length_pos_of_mem hmem
    omega
  · intro sn hsn
    rw [get_retrieved_nodes_true_eq] at hsn
    rcases mem_llmRerank_node hsn with ⟨sn', _, _, z, hjz, hsc⟩
    exact ⟨z, hsc, hvalid _ z hjz⟩

/-- C5 (witness): one indexed chunk, a model that scores every document 7:
the pipeline returns exactly one chunk with integer score in [1,10]. -/
theorem C5_rerank_top1_witness :
    (get_retrieved_nodes [0] (fun _ _ => (1 : ℚ)) (fun _ _ => some 7)
      "How has AWS evolved?" 1 1 true).length = 1 ∧
    ∀ sn ∈ get_retrieved_nodes [0] (fun _ _ => (1 : ℚ)) (fun _ _ => some 7)
        "How has AWS evolved?" 1 1 true,
      ∃ z : ℤ, sn.score = (z : ℚ) ∧ 1 ≤ z ∧ z ≤ 10 :=
  C5_rerank_top1 [0] (fun _ _ => (1 : ℚ)) (fun _ _ => some 7)
    (by intro c z h; injection h with h; omega)
    (by decide)

/-- C6 (counterexample): the Titan notebook supplies no choice-select prompt
template at all — its `LLMRerank` configuration leaves the parameter unset,
falling back to the framework default, so no Titan-specific template is
configured. -/
theorem C6_titan_supplies_no_prompt :
    (titanRerankConfig 3).choice_select_prompt = none := rfl

/-- C6 (amended): the choice-select prompt is a configuration parameter and
is the only difference between the two notebooks' reranker configurations:
the Claude notebook supplies its Claude-specific template, the Titan notebook
supplies none (framework default); batch size and top-n agree, and the two
configurations are distinct. -/
theorem C6_prompt_only_config_difference (reranker_top_n : Nat) :
    (claudeRerankConfig reranker_top_n).choice_select_prompt =
      some claude_choice_select_prompt ∧
    (titanRerankConfig reranker_top_n).choice_select_prompt = none ∧
    (claudeRerankConfig reranker_top_n).choice_batch_size =
      (titanRerankConfig reranker_top_n).choice_batch_size ∧
    (claudeRerankConfig reranker_top_n).top_n = (titanRerankConfig reranker_top_n).top_n ∧
    claudeRerankConfig reranker_top_n ≠ titanRerankConfig reranker_top_n := by
  refine ⟨rfl, rfl, rfl, rfl, fun h => ?_⟩
  have := congrArg LLMRerankConfig.choice_select_prompt h
  simp [claudeRerankConfig, titanRerankConfig] at this

/-- C7: the trim step keeps exactly the first `n - 3` pages of an `n`-page
PDF, in their original order and otherwise unchanged (it is a prefix of the
original page list). -/
theorem C7_trim_keeps_first_pages (α : Type) (pages : List α) (h : 3 ≤ pages.length) :
    trimPdf pages = pages.take (pages.length - 3) ∧
    (trimPdf pages).length + 3 = pages.length :=
  ⟨trimPdf_eq_take pages, by have := length_trimPdf pages; omega⟩

/-- C7 (witness): a five-page PDF is trimmed to its first two pages. -/
theorem C7_trim_keeps_first_pages_witness :
    3 ≤ ([10, 11, 12, 13, 14] : List Nat).length ∧
    trimPdf ([10, 11, 12, 13, 14] : List Nat) =
      ([10, 11, 12, 13, 14] : List Nat).take (([10, 11, 12, 13, 14] : List Nat).length - 3) ∧
    (trimPdf ([10, 11, 12, 13, 14] : List Nat)).length + 3 =
      ([10, 11, 12, 13, 14] : List Nat).length :=
  ⟨by decide, C7_trim_keeps_first_pages Nat [10, 11, 12, 13, 14] (by decide)⟩

/-- C8: on a PDF of at most 3 pages the trim loop runs zero times, so the
file is overwritten with a zero-page PDF — the whole document is destroyed,
without any error. -/
theorem C8_trim_small_pdf_empty (α : Type) (pages : List α) (h : pages.length ≤ 3) :
    trimPdf pages = [] := by
  rw [trimPdf_eq_take]
  have h0 : pages.length - 3 = 0 := by omega
  rw [h0, List.take_zero]

/-- C8 (witness): trimming a three-page PDF yields an empty PDF. -/
theorem C8_trim_small_pdf_empty_witness :
    ([10, 11, 12] : List Nat).length ≤ 3 ∧ trimPdf ([10, 11, 12] : List Nat) = [] :=
  ⟨by decide, C8_trim_small_pdf_empty Nat [10, 11, 12] (by decide)⟩

/-- C9: the trim step is not idempotent: `k` applications to an `n`-page PDF
leave `n - 3k` pages (truncated at 0), and whenever one application leaves
any pages, a second application leaves strictly fewer. -/
theorem C9_trim_not_idempotent (α : Type) :
    (∀ (pages : List α) (k : Nat), (trimPdf^[k] pages).length = pages.length - 3 * k) ∧
    (∀ pages : List α, trimPdf pages ≠ [] →
      (trimPdf (trimPdf pages)).length < (trimPdf pages).length) := by
  constructor
  · intro pages k
    induction k generalizing pages with
    | zero => simp
    | succ k ih =>
      rw [Function.iterate_succ_apply, ih (trimPdf pages), length_trimPdf]
      omega
  · intro pages hne
    have h1 := length_trimPdf pages
    have h2 := length_trimPdf (trimPdf pages)
    have h3 : 0 < (trimPdf pages).length := List.length_pos.mpr hne
    omega

/-- C9 (witness): a seven-page PDF has one page left after two trims, and the
second trim of that PDF strictly shrinks the result of the first. -/
theorem C9_trim_not_idempotent_witness :
    (trimPdf^[2] ([0, 1, 2, 3, 4, 5, 6] : List Nat)).length =
      ([0, 1, 2, 3, 4, 5, 6] : List Nat).length - 3 * 2 ∧
    (trimPdf (trimPdf ([0, 1, 2, 3, 4, 5, 6] : List Nat))).length <
      (trimPdf ([0, 1, 2, 3, 4, 5, 6] : List Nat)).length :=
  ⟨(C9_trim_not_idempotent Nat).1 [0, 1, 2, 3, 4, 5, 6] 2,
   (C9_trim_not_idempotent Nat).2 [0, 1, 2, 3, 4, 5, 6] (by decide)⟩

/-- C10: with the reranker disabled, the result of `get_retrieved_nodes` is
independent of the `reranker_top_n` argument: two calls differing only in it
return identical result lists. -/
theorem C10_reranker_topn_noninterference (chunks : List Nat) (sim : String → Nat → ℚ)
    (judge : String → Nat → Option ℤ) (query_str : String) (k n₁ n₂ : Nat) :
    get_retrieved_nodes chunks sim judge query_str k n₁ false =
      get_retrieved_nodes chunks sim judge query_str k n₂ false := rfl

end AwsBedrockRag
